import Mathlib

/-!
Verification of the taxi order-dispatch bot (src/taxi.py) against its
natural-language specification.

The Python module is shallowly embedded below: dataclasses become
structures, the in-memory dict storage becomes association lists with
insertion-order update semantics, the aiogram handlers become pure
functions returning the updated storage together with the observable
reply, and fallible operations return `Option`.  Python `str.strip`,
`str.lower` and `int(...)` are modelled over the ASCII range by
`pyStrip`, `pyLower` and `pyInt`.  Messaging side effects (chat replies,
message edits) are reduced to the returned result values; the outbound
send channel is passed in as a function so that its failure modes can be
quantified over.
-/

namespace Taxi

/-- Embedding of the configuration constants of class Config (taxi.py lines 17-27). -/
def MAIN_BOT_TOKEN : String := "6945856267:AAHdWr7B-T3llPgMmRaIJAHaX5u4f6E1pWI"

/-- Embedding of Config.MAIN_GROUP_ID (taxi.py line 27). -/
def MAIN_GROUP_ID : Int := -1002553104013

/-- Embedding of dataclass Order (taxi.py lines 34-50).  Field defaults follow the
dataclass defaults; status is one of "pending", "accepted", "rejected", "completed". -/
structure Order where
  id : String
  from_location : String
  to_location : String
  phone : String
  luggage : String
  time : String
  comment : String
  passengers : Int
  status : String := "pending"
  driver_id : Option Int := none
  driver_username : Option String := none
  clone_bot_token : String
  customer_chat_id : Int
  customer_message_id : Option Int := none
deriving Repr, DecidableEq

/-- Embedding of dataclass BotInstance (taxi.py lines 52-58). -/
structure BotInstance where
  token : String
  name : String
  is_main : Bool := false
  active : Bool := true
deriving Repr, DecidableEq

/-- Embedding of dataclass Route (taxi.py lines 60-64): a route name and the
optional Telegram topic id it is linked to. -/
structure Route where
  name : String
  thread_id : Option Int := none
deriving Repr, DecidableEq

/-- Lookup in a Python dict modelled as an association list: the first binding
of the key, if any. -/
def dictGet {α : Type} : List (String × α) → String → Option α
  | [], _ => none
  | p :: rest, k => if p.1 = k then some p.2 else dictGet rest k

/-- Assignment `d[k] = v` on a Python dict modelled as an association list:
overwrite the existing binding in place (keeping its position, as dicts keep
insertion order), or append a new binding. -/
def dictSet {α : Type} : List (String × α) → String → α → List (String × α)
  | [], k, v => [(k, v)]
  | p :: rest, k, v => if p.1 = k then (k, v) :: rest else p :: dictSet rest k v

/-- Embedding of class InMemoryStorage (taxi.py lines 67-136): the three dicts,
keyed by token, route name and order id respectively.  (The static admin-user
set and the logging calls play no part in the verified operations.) -/
structure InMemoryStorage where
  bot_instances : List (String × BotInstance) := []
  routes : List (String × Route) := []
  orders : List (String × Order) := []
deriving Repr, DecidableEq

/-- Embedding of InMemoryStorage.add_route (taxi.py lines 101-104). -/
def add_route (s : InMemoryStorage) (r : Route) : InMemoryStorage :=
  { s with routes := dictSet s.routes r.name r }

/-- Embedding of InMemoryStorage.get_route (taxi.py lines 106-108). -/
def get_route (s : InMemoryStorage) (name : String) : Option Route :=
  dictGet s.routes name

/-- Embedding of InMemoryStorage.add_order (taxi.py lines 120-123). -/
def add_order (s : InMemoryStorage) (o : Order) : InMemoryStorage :=
  { s with orders := dictSet s.orders o.id o }

/-- Embedding of InMemoryStorage.get_order (taxi.py lines 125-127). -/
def get_order (s : InMemoryStorage) (order_id : String) : Option Order :=
  dictGet s.orders order_id

/-- Embedding of InMemoryStorage.update_order (taxi.py lines 129-132). -/
def update_order (s : InMemoryStorage) (o : Order) : InMemoryStorage :=
  { s with orders := dictSet s.orders o.id o }

/-- Embedding of InMemoryStorage.get_pending_orders (taxi.py lines 134-136):
all stored orders whose status is "pending", in storage order. -/
def get_pending_orders (s : InMemoryStorage) : List Order :=
  (s.orders.map Prod.snd).filter (fun o => decide (o.status = "pending"))

/-- Model of Python default whitespace for str.strip over the ASCII range. -/
def isPyWhitespace (c : Char) : Bool :=
  decide (c = ' ' ∨ c = '\t' ∨ c = '\n' ∨ c = '\x0d' ∨ c = '\x0b' ∨ c = '\x0c')

/-- Model of Python str.strip (no argument): drop leading and trailing
whitespace.  Non-ASCII whitespace is not modelled. -/
def pyStrip (s : String) : String :=
  String.mk (((s.data.dropWhile isPyWhitespace).reverse.dropWhile isPyWhitespace).reverse)

/-- Model of Python str.lower over the ASCII range. -/
def pyLower (s : String) : String :=
  String.mk (s.data.map (fun c =>
    if c.toNat ≥ 65 ∧ c.toNat ≤ 90 then Char.ofNat (c.toNat + 32) else c))

/-- Accumulating digit scanner for `pyInt`: digits, with a single underscore
allowed between two digits (as Python int accepts). -/
def pyIntDigits : Nat → List Char → Option Nat
  | acc, [] => some acc
  | acc, '_' :: c :: cs =>
    if c.isDigit then pyIntDigits (10 * acc + (c.toNat - 48)) cs else none
  | _, ['_'] => none
  | acc, c :: cs =>
    if c.isDigit then pyIntDigits (10 * acc + (c.toNat - 48)) cs else none

/-- Digit-sequence acceptor for `pyInt`: at least one leading digit. -/
def pyIntBody : List Char → Option Nat
  | [] => none
  | c :: cs => if c.isDigit then pyIntDigits (c.toNat - 48) cs else none

/-- Model of Python int(str): surrounding whitespace stripped, an optional
sign, then ASCII digits with single underscores between digits; none models
the ValueError raised on any other input.  Non-ASCII digit forms are not
modelled. -/
def pyInt (s : String) : Option Int :=
  match (pyStrip s).data with
  | '+' :: rest => (pyIntBody rest).map (fun n => (n : Int))
  | '-' :: rest => (pyIntBody rest).map (fun n => -(n : Int))
  | l => (pyIntBody l).map (fun n => (n : Int))

/-- Splitter underlying `parse_callback_data`: cut a character list at its
first underscore; none when no underscore occurs. -/
def splitOnce : List Char → Option (List Char × List Char)
  | [] => none
  | c :: cs =>
    if c = '_' then some ([], cs)
    else
      match splitOnce cs with
      | some (a, b) => some (c :: a, b)
      | none => none

/-- Embedding of `query.data.split(\x27_\x27, 1)` followed by unpacking into two
variables (taxi.py line 372): the text before the first underscore and the
text after it; none models the ValueError raised when there is no underscore. -/
def parse_callback_data (s : String) : Option (String × String) :=
  match splitOnce s.data with
  | some (a, b) => some (String.mk a, String.mk b)
  | none => none

/-- Embedding of the callback_data of the Accept button built by
get_order_markup (taxi.py line 321). -/
def accept_button_data (order_id : String) : String := "accept_order_" ++ order_id

/-- Embedding of the callback_data of the Reject button built by
get_order_markup (taxi.py line 322). -/
def reject_button_data (order_id : String) : String := "reject_order_" ++ order_id

/-- Embedding of get_order_markup (taxi.py lines 317-324): the two inline
buttons as (label, callback_data) pairs.  The label characters are the exact
(mojibake) characters stored in the source file. -/
def get_order_markup (order_id : String) : List (String × String) :=
  [("‚úÖ Accept Order", accept_button_data order_id),
   ("‚ùå Reject Order", reject_button_data order_id)]

/-- Outcome observed by the driver pressing a button, read off the
query.answer text chosen by handle_order_callback.  NotFound: "This order was
not found or has been removed."; AlreadyResolved: "This order has already
been ... by ..."; Accepted: "You have accepted this order!"; Declined: "You
have rejected this order.". -/
inductive ClaimResult where
  | NotFound
  | AlreadyResolved
  | Accepted
  | Declined
deriving Repr, DecidableEq

/-- Embedding of handle_order_callback (taxi.py lines 369-444), the shared
handler for the accept_order_* and reject_order_* button callbacks.  The
outer Option models the uncaught ValueError when the callback data contains
no underscore; the inner Option ClaimResult is the reply sent via
query.answer, none when the handler falls through both action branches and
replies nothing.  Message edits and customer notifications (all wrapped in
try/except in the source) do not touch the storage and are omitted. -/
def handle_order_callback (s : InMemoryStorage) (data : String) (driver_id : Int)
    (driver_username : String) : Option (InMemoryStorage × Option ClaimResult) :=
  match parse_callback_data data with
  | none => none
  | some (action, order_id) =>
    match get_order s order_id with
    | none => some (s, some .NotFound)
    | some order =>
      if order.status ≠ "pending" then some (s, some .AlreadyResolved)
      else if action = "accept" then
        let o2 := { order with status := "accepted", driver_id := some driver_id,
                               driver_username := some driver_username }
        some (update_order s o2, some .Accepted)
      else if action = "reject" then
        some (update_order s { order with status := "rejected" }, some .Declined)
      else some (s, none)

/-- Claim operation of the specification, claim(work_item_id, claimant,
accept), realised by the code: the button payload "{action}_{work_item_id}"
(the encoding stated in spec section 6) submitted to handle_order_callback. -/
def claim (s : InMemoryStorage) (order_id : String) (driver_id : Int)
    (driver_username : String) (accept : Bool) : Option (InMemoryStorage × Option ClaimResult) :=
  handle_order_callback s ((if accept then "accept" else "reject") ++ "_" ++ order_id)
    driver_id driver_username

/-- Embedding of class OrderStates (taxi.py lines 158-167): the FSM states of
the order-placement dialog. -/
inductive OrderState where
  | waiting_for_from
  | waiting_for_to
  | waiting_for_phone
  | waiting_for_luggage
  | waiting_for_time
  | waiting_for_comment
  | waiting_for_passengers
  | confirm_order
deriving Repr, DecidableEq

/-- Embedding of the per-conversation FSM data dict written by
state.update_data: one optional entry per collected field. -/
structure UserData where
  from_location : Option String := none
  to_location : Option String := none
  phone : Option String := none
  luggage : Option String := none
  time : Option String := none
  comment : Option String := none
  passengers : Option Int := none
deriving Repr, DecidableEq

/-- Result of one customer-message handler: the prompt of the next step, or a
validation rejection that re-issues the current step. -/
inductive AdvanceResult where
  | prompt (text : String)
  | rejected (text : String)
deriving Repr, DecidableEq

/-- Embedding of process_from_location (taxi.py lines 459-466): result is the
state set for the conversation, the FSM data and the reply sent. -/
def process_from_location (d : UserData) (text : String) :
    OrderState × UserData × AdvanceResult :=
  if text = "" ∨ pyStrip text = "" then
    (.waiting_for_from, d, .rejected "Please provide a valid pickup location.")
  else
    (.waiting_for_to, { d with from_location := some (pyStrip text) },
     .prompt "Great! Now, what is your <b>destination</b> (e.g., 'CityB, Main Square')?")

/-- Embedding of process_to_location (taxi.py lines 468-475). -/
def process_to_location (d : UserData) (text : String) :
    OrderState × UserData × AdvanceResult :=
  if text = "" ∨ pyStrip text = "" then
    (.waiting_for_to, d, .rejected "Please provide a valid destination.")
  else
    (.waiting_for_phone, { d with to_location := some (pyStrip text) },
     .prompt "What is your <b>phone number</b> (e.g., '+1234567890')?")

/-- Embedding of process_phone (taxi.py lines 477-484). -/
def process_phone (d : UserData) (text : String) :
    OrderState × UserData × AdvanceResult :=
  if text = "" ∨ pyStrip text = "" then
    (.waiting_for_phone, d, .rejected "Please provide a valid phone number.")
  else
    (.waiting_for_luggage, { d with phone := some (pyStrip text) },
     .prompt "Do you have any <b>luggage</b>? (e.g., 'No', 'Small bag', 'Large suitcase')")

/-- Embedding of process_luggage (taxi.py lines 486-493). -/
def process_luggage (d : UserData) (text : String) :
    OrderState × UserData × AdvanceResult :=
  if text = "" ∨ pyStrip text = "" then
    (.waiting_for_luggage, d, .rejected "Please specify if you have luggage.")
  else
    (.waiting_for_time, { d with luggage := some (pyStrip text) },
     .prompt "When do you need the taxi? (e.g., 'Now', '15:30', 'Tomorrow morning')")

/-- Embedding of process_time (taxi.py lines 495-502). -/
def process_time (d : UserData) (text : String) :
    OrderState × UserData × AdvanceResult :=
  if text = "" ∨ pyStrip text = "" then
    (.waiting_for_time, d, .rejected "Please specify the time.")
  else
    (.waiting_for_comment, { d with time := some (pyStrip text) },
     .prompt "Any <b>additional comments</b> for the driver? (e.g., 'Meet at entrance', 'Call upon arrival', or 'None')")

/-- Embedding of process_comment (taxi.py lines 504-508): no validation at
all; a falsy (empty) message text is stored as the string "None". -/
def process_comment (d : UserData) (text : String) :
    OrderState × UserData × AdvanceResult :=
  (.waiting_for_passengers,
   { d with comment := some (if text ≠ "" then pyStrip text else "None") },
   .prompt "How many <b>passengers</b>? (e.g., '1', '2')")

/-- Embedding of the confirmation summary built by process_passengers
(taxi.py lines 523-533); user_data.get of an absent key renders as "None". -/
def confirmation_text (d : UserData) : String :=
  "<b>Please review your order details:</b>\n\n" ++
  "<b>From:</b> " ++ (d.from_location.getD "None") ++ "\n" ++
  "<b>To:</b> " ++ (d.to_location.getD "None") ++ "\n" ++
  "<b>Phone:</b> <code>" ++ (d.phone.getD "None") ++ "</code>\n" ++
  "<b>Luggage:</b> " ++ (d.luggage.getD "None") ++ "\n" ++
  "<b>Time:</b> " ++ (d.time.getD "None") ++ "\n" ++
  "<b>Passengers:</b> " ++ (match d.passengers with
                            | some n => toString n
                            | none => "None") ++ "\n" ++
  "<b>Comment:</b> " ++ (d.comment.getD "None") ++ "\n\n" ++
  "Is everything correct? Type 'yes' to confirm or 'no' to restart."

/-- Embedding of process_passengers (taxi.py lines 510-535): int conversion of
the stripped text, positivity check via the raised-and-caught ValueError. -/
def process_passengers (d : UserData) (text : String) :
    OrderState × UserData × AdvanceResult :=
  match pyInt (pyStrip text) with
  | some n =>
    if n ≤ 0 then
      (.waiting_for_passengers, d,
       .rejected "Please enter a valid number of passengers (e.g., '1', '2').")
    else
      let d2 := { d with passengers := some n }
      (.confirm_order, d2, .prompt (confirmation_text d2))
  | none =>
    (.waiting_for_passengers, d,
     .rejected "Please enter a valid number of passengers (e.g., '1', '2').")

/-- Dispatch table for customer text messages in a collecting state, as
registered in main (taxi.py lines 608-614): the handler keyed by the current
FSM state.  The confirm_order state is handled by the differently-shaped
confirm_order function below, hence none here. -/
def advance_collect (st : OrderState) (d : UserData) (text : String) :
    Option (OrderState × UserData × AdvanceResult) :=
  match st with
  | .waiting_for_from => some (process_from_location d text)
  | .waiting_for_to => some (process_to_location d text)
  | .waiting_for_phone => some (process_phone d text)
  | .waiting_for_luggage => some (process_luggage d text)
  | .waiting_for_time => some (process_time d text)
  | .waiting_for_comment => some (process_comment d text)
  | .waiting_for_passengers => some (process_passengers d text)
  | .confirm_order => none

/-- Dispatcher loop: feed a sequence of customer messages through
advance_collect, threading state and data exactly as the aiogram dispatcher
does for successive updates of one conversation. -/
def run_collect : OrderState → UserData → List String → OrderState × UserData
  | st, d, [] => (st, d)
  | st, d, t :: ts =>
    match advance_collect st d t with
    | some (st2, d2, _) => run_collect st2 d2 ts
    | none => (st, d)

/-- Reply of the confirm_order handler. -/
inductive ConfirmResult where
  | finalized (o : Order)
  | cancelled
  | rejected (text : String)
  | key_error
deriving Repr, DecidableEq

/-- Embedding of confirm_order (taxi.py lines 537-573).  order_id stands for
the freshly generated str(uuid.uuid4()); customer_message_id is the message id
returned by message.answer for the customer confirmation; tok is
current_bot.token and chat is message.chat.id.  The middle component is the
conversation FSM context after the handler: none models state.clear().
key_error models the KeyError raised when a collected field is absent from
user_data (unreachable along the registered dialog flow).  The
distribute_order call made on the yes branch reads but never writes the
storage (see distribute_order below), so the returned storage is complete. -/
def confirm_order (s : InMemoryStorage) (d : UserData) (text : String)
    (order_id : String) (tok : String) (chat : Int) (customer_message_id : Int) :
    InMemoryStorage × Option (OrderState × UserData) × ConfirmResult :=
  if pyStrip (pyLower text) = "yes" then
    match d.from_location, d.to_location, d.phone, d.luggage, d.time, d.comment,
          d.passengers with
    | some f, some t, some ph, some lg, some tm, some cm, some ps =>
      let o : Order := { id := order_id, from_location := f, to_location := t,
                         phone := ph, luggage := lg, time := tm, comment := cm,
                         passengers := ps, clone_bot_token := tok,
                         customer_chat_id := chat }
      let s1 := add_order s o
      let o2 := { o with customer_message_id := some customer_message_id }
      let s2 := update_order s1 o2
      (s2, none, .finalized o2)
    | _, _, _, _, _, _, _ => (s, some (.confirm_order, d), .key_error)
  else if pyStrip (pyLower text) = "no" then
    (s, none, .cancelled)
  else
    (s, some (.confirm_order, d), .rejected "Please type 'yes' or 'no'.")

/-- Embedding of the route-name computation of distribute_order (taxi.py
line 332).  The separator is the literal three-character sequence stored in
the source file between the two spaces (a mojibake rendering of an arrow):
U+201A, U+00DC, U+00ED. -/
def route_name_from_order (o : Order) : String :=
  o.from_location ++ " ‚Üí " ++ o.to_location

/-- Embedding of the topic-selection logic of distribute_order (taxi.py lines
333-341): `if route and route.thread_id` — a missing route, a null thread_id
or a zero thread_id (falsy int) all fall back to the default, topicless send. -/
def order_target_thread (s : InMemoryStorage) (o : Order) : Option Int :=
  match get_route s (route_name_from_order o) with
  | some r =>
    match r.thread_id with
    | some t => if t = 0 then none else some t
    | none => none
  | none => none

/-- Embedding of the announcement text built by distribute_order (taxi.py
lines 343-353); the emoji of the source file are its literal (mojibake)
characters. -/
def order_text (o : Order) : String :=
  "<b>üö® NEW ORDER ALERT üö®</b>\n\n" ++
  "<b>From:</b> " ++ o.from_location ++ "\n" ++
  "<b>To:</b> " ++ o.to_location ++ "\n" ++
  "<b>Phone:</b> <code>" ++ o.phone ++ "</code>\n" ++
  "<b>Luggage:</b> " ++ o.luggage ++ "\n" ++
  "<b>Time:</b> " ++ o.time ++ "\n" ++
  "<b>Passengers:</b> " ++ toString o.passengers ++ "\n" ++
  "<b>Comment:</b> " ++ (if o.comment ≠ "" then o.comment else "N/A") ++ "\n\n" ++
  "Order ID: <code>" ++ String.mk (o.id.data.take 8) ++ "...</code>"

/-- Outcome of one outbound send_message call: the id of the posted message,
or a raised delivery error. -/
inductive SendOutcome where
  | sent (message_id : Int)
  | failed
deriving Repr, DecidableEq

/-- Embedding of distribute_order (taxi.py lines 326-367).  The outbound
channel is the send argument, called with the chat id, the text and the
optional topic id; its failure (the raised exception) is caught, logged and
swallowed by the source, so the function is total and returns the storage it
was given (the source never writes the storage here) together with the posted
message id, none on failure — the message id is dropped by the source (never
stored on the order), so no announcement handle ever exists. -/
def distribute_order (s : InMemoryStorage) (o : Order)
    (send : Int → String → Option Int → SendOutcome) :
    InMemoryStorage × Option Int :=
  match send MAIN_GROUP_ID (order_text o) (order_target_thread s o) with
  | .sent mid => (s, some mid)
  | .failed => (s, none)

/-! Association-list (dict) lemmas. -/

theorem dictGet_dictSet_self {α : Type} (m : List (String × α)) (k : String) (v : α) :
    dictGet (dictSet m k v) k = some v := by
  induction m with
  | nil => simp [dictGet, dictSet]
  | cons p rest ih =>
    by_cases h : p.1 = k
    · simp [dictGet, dictSet, h]
    · simp [dictGet, dictSet, h, ih]

theorem dictGet_dictSet_ne {α : Type} (m : List (String × α)) (k k2 : String) (v : α)
    (h : k2 ≠ k) : dictGet (dictSet m k v) k2 = dictGet m k2 := by
  have hne : ¬ (k = k2) := fun hh => h hh.symm
  induction m with
  | nil => simp [dictGet, dictSet, hne]
  | cons p rest ih =>
    by_cases hp : p.1 = k
    · have hp2 : ¬ (p.1 = k2) := by rw [hp]; exact hne
      simp [dictGet, dictSet, hp, hne, hp2]
    · by_cases hp2 : p.1 = k2 <;> simp [dictGet, dictSet, hp, hp2, h, ih]

theorem mem_of_dictGet {α : Type} {m : List (String × α)} {k : String} {v : α}
    (h : dictGet m k = some v) : (k, v) ∈ m := by
  induction m with
  | nil => simp [dictGet] at h
  | cons p rest ih =>
    by_cases hp : p.1 = k
    · simp [dictGet, hp] at h
      subst hp
      subst h
      exact List.mem_cons_self _ _
    · simp [dictGet, hp] at h
      exact List.mem_cons_of_mem _ (ih h)

theorem mem_dictSet {α : Type} {m : List (String × α)} {k : String} {v : α}
    {p : String × α} (h : p ∈ dictSet m k v) : p = (k, v) ∨ p ∈ m := by
  induction m with
  | nil => simp [dictSet] at h; simp [h]
  | cons q rest ih =>
    by_cases hq : q.1 = k
    · simp [dictSet, hq] at h
      rcases h with h | h
      · left; simp [h]
      · right; simp [h]
    · simp [dictSet, hq] at h
      rcases h with h | h
      · right; simp [h]
      · rcases ih h with h2 | h2
        · left; exact h2
        · right; simp [h2]

theorem mem_dictSet_key_eq {α : Type} {m : List (String × α)} {k : String} {v : α}
    {p : String × α} (hnd : (m.map Prod.fst).Nodup) (h : p ∈ dictSet m k v)
    (hk : p.1 = k) : p = (k, v) := by
  induction m with
  | nil =>
    simp [dictSet] at h
    simp [h]
  | cons q rest ih =>
    simp only [List.map_cons, List.nodup_cons] at hnd
    by_cases hq : q.1 = k
    · simp [dictSet, hq] at h
      rcases h with h | h
      · simp [h]
      · exfalso
        apply hnd.1
        have : p.1 ∈ rest.map Prod.fst := List.mem_map.2 ⟨p, h, rfl⟩
        rw [hk, ← hq] at this
        exact this
    · simp [dictSet, hq] at h
      rcases h with h | h
      · exact absurd (h ▸ hk) hq
      · exact ih hnd.2 h

/-! Callback-payload parsing lemmas. -/

theorem splitOnce_append (a b : List Char) (h : '_' ∉ a) :
    splitOnce (a ++ '_' :: b) = some (a, b) := by
  induction a with
  | nil => simp [splitOnce]
  | cons c cs ih =>
    simp only [List.mem_cons, not_or] at h
    have hc : ¬ (c = '_') := fun hh => h.1 hh.symm
    simp [splitOnce, hc, ih h.2]

theorem string_data_append (s t : String) : (s ++ t).data = s.data ++ t.data := by
  cases s; cases t; rfl

theorem string_mk_data (s : String) : String.mk s.data = s := rfl

theorem parse_callback_data_split (action rest : String) (h : '_' ∉ action.data) :
    parse_callback_data (action ++ "_" ++ rest) = some (action, rest) := by
  have hdata : (action ++ "_" ++ rest).data = action.data ++ '_' :: rest.data := by
    rw [string_data_append, string_data_append, List.append_assoc]
    rfl
  unfold parse_callback_data
  rw [hdata, splitOnce_append _ _ h]

/-- Behaviour of the claim operation on an unknown work-item id: the payload
parse recovers the action and the full id (only the first underscore splits),
the storage lookup fails, and the not-found reply is sent. -/
theorem claim_of_get_order_none (s : InMemoryStorage) (order_id : String)
    (driver_id : Int) (driver_username : String) (accept : Bool)
    (hg : get_order s order_id = none) :
    claim s order_id driver_id driver_username accept = some (s, some .NotFound) := by
  cases accept with
  | true =>
    unfold claim handle_order_callback
    rw [show ((if (true : Bool) then "accept" else "reject") : String) = "accept" from rfl,
       parse_callback_data_split "accept" order_id (by decide)]
    simp [hg]
  | false =>
    unfold claim handle_order_callback
    rw [show ((if (false : Bool) then "accept" else "reject") : String) = "reject" from rfl,
       parse_callback_data_split "reject" order_id (by decide)]
    simp [hg]

/-- Behaviour of the claim operation on an item whose status has left
"pending": the already-resolved reply is sent and the storage is untouched. -/
theorem claim_of_not_pending (s : InMemoryStorage) (order_id : String)
    (driver_id : Int) (driver_username : String) (accept : Bool) (o : Order)
    (hg : get_order s order_id = some o) (hs : o.status ≠ "pending") :
    claim s order_id driver_id driver_username accept = some (s, some .AlreadyResolved) := by
  cases accept with
  | true =>
    unfold claim handle_order_callback
    rw [show ((if (true : Bool) then "accept" else "reject") : String) = "accept" from rfl,
       parse_callback_data_split "accept" order_id (by decide)]
    simp [hg, hs]
  | false =>
    unfold claim handle_order_callback
    rw [show ((if (false : Bool) then "accept" else "reject") : String) = "reject" from rfl,
       parse_callback_data_split "reject" order_id (by decide)]
    simp [hg, hs]

/-- Behaviour of an accepting claim on a pending item: status becomes
"accepted", the claimant is recorded, and the accepted reply is sent. -/
theorem claim_accept_pending (s : InMemoryStorage) (order_id : String)
    (driver_id : Int) (driver_username : String) (o : Order)
    (hg : get_order s order_id = some o) (hs : o.status = "pending") :
    claim s order_id driver_id driver_username true =
      some (update_order s { o with status := "accepted", driver_id := some driver_id, driver_username := some driver_username }, some .Accepted) := by
  unfold claim handle_order_callback
  rw [show ((if (true : Bool) then "accept" else "reject") : String) = "accept" from rfl,
     parse_callback_data_split "accept" order_id (by decide)]
  simp [hg, hs]

/-- Behaviour of a declining claim on a pending item: status becomes
"rejected" (for the whole item) and the declined reply is sent. -/
theorem claim_decline_pending (s : InMemoryStorage) (order_id : String)
    (driver_id : Int) (driver_username : String) (o : Order)
    (hg : get_order s order_id = some o) (hs : o.status = "pending") :
    claim s order_id driver_id driver_username false =
      some (update_order s { o with status := "rejected" }, some .Declined) := by
  unfold claim handle_order_callback
  rw [show ((if (false : Bool) then "accept" else "reject") : String) = "reject" from rfl,
     parse_callback_data_split "reject" order_id (by decide)]
  have hra : ¬ (("reject" : String) = "accept") := by decide
  simp [hg, hs, hra]

/-! Concrete sample data for the witnesses. -/

/-- Sample pending order used by the concrete witnesses. -/
def order1 : Order :=
  { id := "o1", from_location := "a", to_location := "b", phone := "p", luggage := "no", time := "now", comment := "c", passengers := 1, clone_bot_token := "t", customer_chat_id := 5 }

/-- Sample storage holding the single pending order order1. -/
def store1 : InMemoryStorage := { orders := [("o1", order1)] }

/-- Sample order already accepted by driver 7. -/
def order_claimed : Order :=
  { order1 with id := "o2", status := "accepted", driver_id := some 7, driver_username := some "alice" }

/-- Sample storage holding the single accepted order order_claimed. -/
def store_claimed : InMemoryStorage := { orders := [("o2", order_claimed)] }

/-- Sample storage after order1 was declined: its status is "rejected". -/
def store1_declined : InMemoryStorage :=
  { orders := [("o1", { order1 with status := "rejected" })] }

/-- C1: claim arbitration on a pending item.  The read-check-write section of
handle_order_callback (taxi.py lines 372-390) contains no await between the
storage read and the storage write, so under the single-threaded asyncio
event loop two concurrent claim attempts execute in one of the two serial
orders; quantifying over the identities (c1, u1) of whichever attempt runs
first covers both interleavings.  The first accepting claim receives
Accepted, the other receives AlreadyResolved, the item ends Claimed
("accepted") with the winner recorded as claimant, and every third
subsequent claim of any kind also receives AlreadyResolved. -/
theorem C1_concurrent_accept_single_winner (s : InMemoryStorage) (order_id : String)
    (o : Order) (c1 c2 : Int) (u1 u2 : String)
    (hg : get_order s order_id = some o) (hid : o.id = order_id)
    (hp : o.status = "pending") :
    ∃ s1 : InMemoryStorage,
      claim s order_id c1 u1 true = some (s1, some ClaimResult.Accepted) ∧
      claim s1 order_id c2 u2 true = some (s1, some ClaimResult.AlreadyResolved) ∧
      get_order s1 order_id = some { o with status := "accepted", driver_id := some c1, driver_username := some u1 } ∧
      (∀ (c3 : Int) (u3 : String) (acc : Bool),
        claim s1 order_id c3 u3 acc = some (s1, some ClaimResult.AlreadyResolved)) := by
  set o2 : Order := { o with status := "accepted", driver_id := some c1, driver_username := some u1 } with ho2
  have hg2 : get_order (update_order s o2) order_id = some o2 := by
    show dictGet (dictSet s.orders o2.id o2) order_id = some o2
    have hid2 : o2.id = order_id := hid
    rw [hid2]
    exact dictGet_dictSet_self _ _ _
  have hstat2 : o2.status = "accepted" := by rw [ho2]
  have hnp : o2.status ≠ "pending" := by rw [hstat2]; decide
  refine ⟨update_order s o2, claim_accept_pending s order_id c1 u1 o hg hp, ?_, hg2, ?_⟩
  · exact claim_of_not_pending _ order_id c2 u2 true o2 hg2 hnp
  · intro c3 u3 acc
    exact claim_of_not_pending _ order_id c3 u3 acc o2 hg2 hnp

/-- Witness for C1 at a concrete pending order: driver 7 and driver 8 race,
7 arriving first. -/
theorem C1_concurrent_accept_single_winner_witness :
    ∃ s1 : InMemoryStorage,
      claim store1 "o1" 7 "alice" true = some (s1, some ClaimResult.Accepted) ∧
      claim s1 "o1" 8 "bob" true = some (s1, some ClaimResult.AlreadyResolved) ∧
      get_order s1 "o1" = some { order1 with status := "accepted", driver_id := some 7, driver_username := some "alice" } ∧
      (∀ (c3 : Int) (u3 : String) (acc : Bool),
        claim s1 "o1" c3 u3 acc = some (s1, some ClaimResult.AlreadyResolved)) :=
  C1_concurrent_accept_single_winner store1 "o1" order1 7 8 "alice" "bob"
    (by decide) (by decide) (by decide)

/-- C4: a Claimed (status "accepted") item answers AlreadyResolved to every
subsequent claim attempt — accepting or declining, by anyone, including the
original claimant — and the whole storage (hence the item's status, claimant
and every other field) is returned unchanged. -/
theorem C4_claimed_item_immutable (s : InMemoryStorage) (order_id : String)
    (o : Order) (c : Int) (u : String) (acc : Bool)
    (hg : get_order s order_id = some o) (hs : o.status = "accepted") :
    claim s order_id c u acc = some (s, some ClaimResult.AlreadyResolved) :=
  claim_of_not_pending s order_id c u acc o hg (by rw [hs]; decide)

/-- Witness for C4: the original claimant (driver 7) retries a decline on the
already accepted order. -/
theorem C4_claimed_item_immutable_witness :
    claim store_claimed "o2" 7 "alice" false =
      some (store_claimed, some ClaimResult.AlreadyResolved) :=
  C4_claimed_item_immutable store_claimed "o2" order_claimed 7 "alice" false
    (by decide) (by decide)

/-- C9: a claim on an id absent from the order store answers NotFound for
every claimant and for both accept and decline, and returns the storage
unchanged. -/
theorem C9_unknown_id_not_found (s : InMemoryStorage) (order_id : String)
    (c : Int) (u : String) (acc : Bool) (hg : get_order s order_id = none) :
    claim s order_id c u acc = some (s, some ClaimResult.NotFound) :=
  claim_of_get_order_none s order_id c u acc hg

/-- Witness for C9: claiming the unknown id "ghost" in the sample storage. -/
theorem C9_unknown_id_not_found_witness :
    claim store1 "ghost" 7 "alice" true = some (store1, some ClaimResult.NotFound) :=
  C9_unknown_id_not_found store1 "ghost" 7 "alice" true (by decide)

/-- C10: declining a pending item sets its status to "rejected", so the item
(updated in place under its id) no longer appears in get_pending_orders, even
though nobody accepted it.  The well-formedness hypotheses — every stored
order sits under its own id, and ids are unique — hold of every storage built
by add_order/update_order. -/
theorem C10_decline_removes_from_pending_listing (s : InMemoryStorage)
    (order_id : String) (o : Order) (c : Int) (u : String)
    (hwf : ∀ p ∈ s.orders, p.2.id = p.1) (hnd : (s.orders.map Prod.fst).Nodup)
    (hg : get_order s order_id = some o) (hp : o.status = "pending") :
    ∃ s1 : InMemoryStorage,
      claim s order_id c u false = some (s1, some ClaimResult.Declined) ∧
      get_order s1 order_id = some { o with status := "rejected" } ∧
      ∀ o2 ∈ get_pending_orders s1, o2.id ≠ order_id := by
  have hid : o.id = order_id := hwf (order_id, o) (mem_of_dictGet hg)
  set o3 : Order := { o with status := "rejected" } with ho3
  have hid3 : o3.id = order_id := hid
  refine ⟨update_order s o3, claim_decline_pending s order_id c u o hg hp, ?_, ?_⟩
  · show dictGet (dictSet s.orders o3.id o3) order_id = some o3
    rw [hid3]
    exact dictGet_dictSet_self _ _ _
  · intro o2 hmem hne
    have hmem2 : o2 ∈ (dictSet s.orders o3.id o3).map Prod.snd ∧
        decide (o2.status = "pending") = true := by
      have := List.mem_filter.1 hmem
      exact this
    obtain ⟨p, hpmem, hpeq⟩ := List.mem_map.1 hmem2.1
    have hstat : o2.status = "pending" := of_decide_eq_true hmem2.2
    have hk : p.1 = o3.id := by
      rcases mem_dictSet hpmem with heq | hm
      · rw [heq]
      · rw [← hwf p hm, hpeq, hne, hid3]
    have hpv : p = (o3.id, o3) := mem_dictSet_key_eq hnd hpmem hk
    have : o2 = o3 := by rw [← hpeq, hpv]
    rw [this, ho3] at hstat
    simp at hstat

/-- Witness for C10: driver 9 declines the sample pending order, which then
leaves the pending listing. -/
theorem C10_decline_removes_from_pending_listing_witness :
    ∃ s1 : InMemoryStorage,
      claim store1 "o1" 9 "carl" false = some (s1, some ClaimResult.Declined) ∧
      get_order s1 "o1" = some { order1 with status := "rejected" } ∧
      ∀ o2 ∈ get_pending_orders s1, o2.id ≠ "o1" :=
  C10_decline_removes_from_pending_listing store1 "o1" order1 9 "carl"
    (by decide) (by decide) (by decide) (by decide)

/-- C2 fails on the code: after driver 1 declines the pending order (claim
with accept = false, which sets the item's status to "rejected"), driver 2's
accepting claim is answered AlreadyResolved — not Accepted — because
handle_order_callback bounces every claim on a non-"pending" status
(taxi.py lines 379-381).  This contradicts the source's own comments (lines
426 and 444) that a rejected item "could still be pending for others" /
"another driver might still accept it". -/
theorem C2_decline_blocks_later_accept :
    claim store1 "o1" 1 "dave" false = some (store1_declined, some ClaimResult.Declined) ∧
    claim store1_declined "o1" 2 "erin" true =
      some (store1_declined, some ClaimResult.AlreadyResolved) := by
  constructor <;> decide

/-- C3 fails on the code: the button payload for order "o1" is
"accept_order_o1" (get_order_markup, taxi.py lines 317-324), and the
handler's split on the first underscore (line 372) recovers the action
"accept" but the id "order_o1" — not "o1" — so the storage lookup misses and
every button press on a stored order is answered NotFound. -/
theorem C3_payload_roundtrip_fails :
    (get_order_markup "o1").map Prod.snd = ["accept_order_o1", "reject_order_o1"] ∧
    parse_callback_data (accept_button_data "o1") = some ("accept", "order_o1") ∧
    ("order_o1" : String) ≠ "o1" ∧
    handle_order_callback store1 (accept_button_data "o1") 7 "alice" =
      some (store1, some ClaimResult.NotFound) := by
  refine ⟨by decide, by decide, by decide, by decide⟩

/-! FSM validation (C6, C7). -/

/-- Collecting states whose handler validates its input.  The comment/notes
state is deliberately absent: process_comment performs no validation. -/
def validating_states : List OrderState :=
  [.waiting_for_from, .waiting_for_to, .waiting_for_phone, .waiting_for_luggage,
   .waiting_for_time, .waiting_for_passengers]

/-- Per-state validity predicate of the specification: non-empty trimmed
string for the free-text fields, positive integer for the party size. -/
def state_valid (st : OrderState) (text : String) : Bool :=
  match st with
  | .waiting_for_passengers =>
    match pyInt (pyStrip text) with
    | some n => decide (0 < n)
    | none => false
  | _ => decide (pyStrip text ≠ "")

/-- Rejection message with which each validating state re-prompts. -/
def reject_message (st : OrderState) : String :=
  match st with
  | .waiting_for_from => "Please provide a valid pickup location."
  | .waiting_for_to => "Please provide a valid destination."
  | .waiting_for_phone => "Please provide a valid phone number."
  | .waiting_for_luggage => "Please specify if you have luggage."
  | .waiting_for_time => "Please specify the time."
  | .waiting_for_passengers => "Please enter a valid number of passengers (e.g., '1', '2')."
  | _ => ""

/-- Successor of each dialog step in the fixed linear sequence. -/
def next_state (st : OrderState) : OrderState :=
  match st with
  | .waiting_for_from => .waiting_for_to
  | .waiting_for_to => .waiting_for_phone
  | .waiting_for_phone => .waiting_for_luggage
  | .waiting_for_luggage => .waiting_for_time
  | .waiting_for_time => .waiting_for_comment
  | .waiting_for_comment => .waiting_for_passengers
  | .waiting_for_passengers => .confirm_order
  | .confirm_order => .confirm_order

/-- Stripping the empty string yields the empty string. -/
theorem pyStrip_empty : pyStrip "" = "" := rfl

/-- C6 (amended): at every validating collecting state — the notes/comment
state excluded — an input failing the per-state predicate is answered
Rejected with that state's specific message (the six messages are pairwise
distinct) and leaves the state tag and the collected fields unchanged, and a
subsequent valid input at the same step is accepted and advances to the next
state of the fixed sequence. -/
theorem C6_invalid_input_rejected_nonadvancing (st : OrderState) (d : UserData)
    (bad good : String) (hst : st ∈ validating_states)
    (hbad : state_valid st bad = false) (hgood : state_valid st good = true) :
    advance_collect st d bad = some (st, d, AdvanceResult.rejected (reject_message st)) ∧
    (∃ d2 text2, advance_collect st d good = some (next_state st, d2, AdvanceResult.prompt text2)) ∧
    next_state st ≠ st ∧
    (validating_states.map reject_message).Pairwise (fun a b => a ≠ b) := by
  simp only [validating_states, List.mem_cons, List.not_mem_nil, or_false] at hst
  rcases hst with rfl | rfl | rfl | rfl | rfl | rfl
  case inl =>
    have hb : pyStrip bad = "" := by simpa [state_valid] using hbad
    have hgd : pyStrip good ≠ "" := by simpa [state_valid] using hgood
    have hg0 : ¬(good = "") := fun h => hgd (by rw [h, pyStrip_empty])
    exact ⟨by simp [advance_collect, process_from_location, reject_message, hb],
      ⟨{ d with from_location := some (pyStrip good) },
       "Great! Now, what is your <b>destination</b> (e.g., 'CityB, Main Square')?",
       by simp [advance_collect, process_from_location, next_state, hg0, hgd]⟩,
      by decide, by decide⟩
  case inl =>
    have hb : pyStrip bad = "" := by simpa [state_valid] using hbad
    have hgd : pyStrip good ≠ "" := by simpa [state_valid] using hgood
    have hg0 : ¬(good = "") := fun h => hgd (by rw [h, pyStrip_empty])
    exact ⟨by simp [advance_collect, process_to_location, reject_message, hb],
      ⟨{ d with to_location := some (pyStrip good) },
       "What is your <b>phone number</b> (e.g., '+1234567890')?",
       by simp [advance_collect, process_to_location, next_state, hg0, hgd]⟩,
      by decide, by decide⟩
  case inl =>
    have hb : pyStrip bad = "" := by simpa [state_valid] using hbad
    have hgd : pyStrip good ≠ "" := by simpa [state_valid] using hgood
    have hg0 : ¬(good = "") := fun h => hgd (by rw [h, pyStrip_empty])
    exact ⟨by simp [advance_collect, process_phone, reject_message, hb],
      ⟨{ d with phone := some (pyStrip good) },
       "Do you have any <b>luggage</b>? (e.g., 'No', 'Small bag', 'Large suitcase')",
       by simp [advance_collect, process_phone, next_state, hg0, hgd]⟩,
      by decide, by decide⟩
  case inl =>
    have hb : pyStrip bad = "" := by simpa [state_valid] using hbad
    have hgd : pyStrip good ≠ "" := by simpa [state_valid] using hgood
    have hg0 : ¬(good = "") := fun h => hgd (by rw [h, pyStrip_empty])
    exact ⟨by simp [advance_collect, process_luggage, reject_message, hb],
      ⟨{ d with luggage := some (pyStrip good) },
       "When do you need the taxi? (e.g., 'Now', '15:30', 'Tomorrow morning')",
       by simp [advance_collect, process_luggage, next_state, hg0, hgd]⟩,
      by decide, by decide⟩
  case inl =>
    have hb : pyStrip bad = "" := by simpa [state_valid] using hbad
    have hgd : pyStrip good ≠ "" := by simpa [state_valid] using hgood
    have hg0 : ¬(good = "") := fun h => hgd (by rw [h, pyStrip_empty])
    exact ⟨by simp [advance_collect, process_time, reject_message, hb],
      ⟨{ d with time := some (pyStrip good) },
       "Any <b>additional comments</b> for the driver? (e.g., 'Meet at entrance', 'Call upon arrival', or 'None')",
       by simp [advance_collect, process_time, next_state, hg0, hgd]⟩,
      by decide, by decide⟩
  case inr =>
    refine ⟨?_, ?_, by decide, by decide⟩
    · cases hpi : pyInt (pyStrip bad) with
      | none => simp [advance_collect, process_passengers, reject_message, hpi]
      | some n =>
        have hn : n ≤ 0 := by
          have := hbad
          simp [state_valid, hpi] at this
          exact this
        simp [advance_collect, process_passengers, reject_message, hpi, hn]
    · cases hpi : pyInt (pyStrip good) with
      | none => simp [state_valid, hpi] at hgood
      | some n =>
        have hn : 0 < n := by
          have := hgood
          simp [state_valid, hpi] at this
          exact this
        have hle : ¬(n ≤ 0) := not_le.2 hn
        exact ⟨{ d with passengers := some n }, confirmation_text { d with passengers := some n },
          by simp [advance_collect, process_passengers, next_state, hpi, hle]⟩

/-- Witness for C6 at the pickup-location state with the whitespace-only
input " " and the valid retry "CityA". -/
theorem C6_invalid_input_rejected_nonadvancing_witness :
    advance_collect OrderState.waiting_for_from {} " " =
      some (OrderState.waiting_for_from, {},
        AdvanceResult.rejected (reject_message OrderState.waiting_for_from)) ∧
    (∃ d2 text2, advance_collect OrderState.waiting_for_from {} "CityA" =
      some (next_state OrderState.waiting_for_from, d2, AdvanceResult.prompt text2)) ∧
    next_state OrderState.waiting_for_from ≠ OrderState.waiting_for_from ∧
    (validating_states.map reject_message).Pairwise (fun a b => a ≠ b) :=
  C6_invalid_input_rejected_nonadvancing OrderState.waiting_for_from {} " " "CityA"
    (by decide) (by decide) (by decide)

/-- C6 as stated is false at the notes/comment collecting step: the empty
input fails the per-state predicate (non-empty trimmed string for a free-text
field), yet process_comment accepts it — the reply is the next prompt, the
state advances to waiting_for_passengers and the field is filled with the
string "None" instead of the step being re-issued. -/
theorem C6_comment_state_counterexample :
    state_valid OrderState.waiting_for_comment "" = false ∧
    advance_collect OrderState.waiting_for_comment {} "" =
      some (OrderState.waiting_for_passengers, { comment := some "None" },
        AdvanceResult.prompt "How many <b>passengers</b>? (e.g., '1', '2')") ∧
    OrderState.waiting_for_passengers ≠ OrderState.waiting_for_comment := by
  refine ⟨by decide, by decide, by decide⟩

/-- C7 (amended): eight valid inputs in the canonical order — origin,
destination, contact, luggage, time, notes, party size, then a
case-insensitive (and whitespace-tolerant) "yes" — drive the FSM to the
confirmation state with the collected fields equal to the submitted values
stripped of surrounding whitespace (party size parsed to its integer value),
after which confirm_order assembles a WorkItem carrying order_id (fresh by
hypothesis), those eight field values and status "pending", stores it under
its id, and clears the conversation state (the none context component). -/
theorem C7_full_dialog_finalizes (v1 v2 v3 v4 v5 v6 v7 v8 order_id tok : String)
    (chat mid : Int) (s : InMemoryStorage) (n : Int)
    (h1 : pyStrip v1 ≠ "") (h2 : pyStrip v2 ≠ "") (h3 : pyStrip v3 ≠ "")
    (h4 : pyStrip v4 ≠ "") (h5 : pyStrip v5 ≠ "") (h6 : pyStrip v6 ≠ "")
    (h7 : pyInt (pyStrip v7) = some n) (h7p : 0 < n)
    (h8 : pyStrip (pyLower v8) = "yes")
    (hfresh : get_order s order_id = none) :
    run_collect OrderState.waiting_for_from {} [v1, v2, v3, v4, v5, v6, v7] =
      (OrderState.confirm_order, { from_location := some (pyStrip v1), to_location := some (pyStrip v2), phone := some (pyStrip v3), luggage := some (pyStrip v4), time := some (pyStrip v5), comment := some (pyStrip v6), passengers := some n }) ∧
    ∃ s2 : InMemoryStorage,
      confirm_order s { from_location := some (pyStrip v1), to_location := some (pyStrip v2), phone := some (pyStrip v3), luggage := some (pyStrip v4), time := some (pyStrip v5), comment := some (pyStrip v6), passengers := some n } v8 order_id tok chat mid =
        (s2, none, ConfirmResult.finalized { id := order_id, from_location := pyStrip v1, to_location := pyStrip v2, phone := pyStrip v3, luggage := pyStrip v4, time := pyStrip v5, comment := pyStrip v6, passengers := n, status := "pending", driver_id := none, driver_username := none, clone_bot_token := tok, customer_chat_id := chat, customer_message_id := some mid }) ∧
      get_order s2 order_id = some { id := order_id, from_location := pyStrip v1, to_location := pyStrip v2, phone := pyStrip v3, luggage := pyStrip v4, time := pyStrip v5, comment := pyStrip v6, passengers := n, status := "pending", driver_id := none, driver_username := none, clone_bot_token := tok, customer_chat_id := chat, customer_message_id := some mid } := by
  have hc1 : ¬(v1 = "" ∨ pyStrip v1 = "") := by
    rintro (h | h)
    · exact h1 (by rw [h, pyStrip_empty])
    · exact h1 h
  have hc2 : ¬(v2 = "" ∨ pyStrip v2 = "") := by
    rintro (h | h)
    · exact h2 (by rw [h, pyStrip_empty])
    · exact h2 h
  have hc3 : ¬(v3 = "" ∨ pyStrip v3 = "") := by
    rintro (h | h)
    · exact h3 (by rw [h, pyStrip_empty])
    · exact h3 h
  have hc4 : ¬(v4 = "" ∨ pyStrip v4 = "") := by
    rintro (h | h)
    · exact h4 (by rw [h, pyStrip_empty])
    · exact h4 h
  have hc5 : ¬(v5 = "" ∨ pyStrip v5 = "") := by
    rintro (h | h)
    · exact h5 (by rw [h, pyStrip_empty])
    · exact h5 h
  have hv6 : ¬(v6 = "") := fun h => h6 (by rw [h, pyStrip_empty])
  have hle : ¬(n ≤ 0) := not_le.2 h7p
  constructor
  · simp [run_collect, advance_collect, process_from_location, process_to_location,
      process_phone, process_luggage, process_time, process_comment, process_passengers,
      hc1, hc2, hc3, hc4, hc5, hv6, h7, hle]
  · refine ⟨update_order (add_order s { id := order_id, from_location := pyStrip v1, to_location := pyStrip v2, phone := pyStrip v3, luggage := pyStrip v4, time := pyStrip v5, comment := pyStrip v6, passengers := n, status := "pending", driver_id := none, driver_username := none, clone_bot_token := tok, customer_chat_id := chat, customer_message_id := none }) { id := order_id, from_location := pyStrip v1, to_location := pyStrip v2, phone := pyStrip v3, luggage := pyStrip v4, time := pyStrip v5, comment := pyStrip v6, passengers := n, status := "pending", driver_id := none, driver_username := none, clone_bot_token := tok, customer_chat_id := chat, customer_message_id := some mid }, ?_, ?_⟩
    · simp [confirm_order, h8]
    · simp only [get_order, update_order, add_order]
      exact dictGet_dictSet_self _ _ _

/-- Witness for C7: the end-to-end scenario of the specification, run on an
empty storage with fresh id "id1". -/
theorem C7_full_dialog_finalizes_witness :
    run_collect OrderState.waiting_for_from {} ["123 Main St", "456 Oak Ave", "+15551234", "none", "now", "call on arrival", "2"] =
      (OrderState.confirm_order, { from_location := some "123 Main St", to_location := some "456 Oak Ave", phone := some "+15551234", luggage := some "none", time := some "now", comment := some "call on arrival", passengers := some 2 }) ∧
    ∃ s2 : InMemoryStorage,
      confirm_order { } { from_location := some "123 Main St", to_location := some "456 Oak Ave", phone := some "+15551234", luggage := some "none", time := some "now", comment := some "call on arrival", passengers := some 2 } "YES" "id1" "tkn" 5 6 =
        (s2, none, ConfirmResult.finalized { id := "id1", from_location := "123 Main St", to_location := "456 Oak Ave", phone := "+15551234", luggage := "none", time := "now", comment := "call on arrival", passengers := 2, status := "pending", driver_id := none, driver_username := none, clone_bot_token := "tkn", customer_chat_id := 5, customer_message_id := some 6 }) ∧
      get_order s2 "id1" = some { id := "id1", from_location := "123 Main St", to_location := "456 Oak Ave", phone := "+15551234", luggage := "none", time := "now", comment := "call on arrival", passengers := 2, status := "pending", driver_id := none, driver_username := none, clone_bot_token := "tkn", customer_chat_id := 5, customer_message_id := some 6 } :=
  C7_full_dialog_finalizes "123 Main St" "456 Oak Ave" "+15551234" "none" "now"
    "call on arrival" "2" "YES" "id1" "tkn" 5 6 { } 2
    (by decide) (by decide) (by decide) (by decide) (by decide) (by decide)
    (by decide) (by decide) (by decide) (by decide)

/-- C7 as stated is false on the trimming of inputs: submitting the valid
origin " a " (non-empty once trimmed) drives the dialog to the confirmation
state, but the collected origin field holds "a", not the submitted value
" a " — collected_fields match the stripped inputs, not the inputs
themselves. -/
theorem C7_untrimmed_input_counterexample :
    (run_collect OrderState.waiting_for_from {} [" a ", "b", "c", "d", "e", "f", "2"]).1 =
      OrderState.confirm_order ∧
    (run_collect OrderState.waiting_for_from {} [" a ", "b", "c", "d", "e", "f", "2"]).2.from_location ≠ some " a " ∧
    (run_collect OrderState.waiting_for_from {} [" a ", "b", "c", "d", "e", "f", "2"]).2.from_location = some "a" := by
  refine ⟨by decide, by decide, by decide⟩

/-! Publish / route selection (C5, C8). -/

/-- C5 (amended): the route name publish computes is origin and destination
joined by the separator of the source file — a space, the three characters
U+201A U+00DC U+00ED (a mojibake rendering of an arrow), and a space — and
the announcement targets the bound sub-channel only when a RouteBinding under
exactly that name carries a non-null, non-zero thread id; otherwise (no
binding, null id, or zero id) it targets the default, topicless channel. -/
theorem C5_route_name_and_target (s : InMemoryStorage) (o : Order) :
    route_name_from_order o = o.from_location ++ " ‚Üí " ++ o.to_location ∧
    (∀ (r : Route) (t : Int), get_route s (route_name_from_order o) = some r →
      r.thread_id = some t → t ≠ 0 → order_target_thread s o = some t) ∧
    (get_route s (route_name_from_order o) = none → order_target_thread s o = none) ∧
    (∀ r : Route, get_route s (route_name_from_order o) = some r →
      r.thread_id = none → order_target_thread s o = none) ∧
    (∀ r : Route, get_route s (route_name_from_order o) = some r →
      r.thread_id = some 0 → order_target_thread s o = none) := by
  refine ⟨rfl, ?_, ?_, ?_, ?_⟩
  · intro r t hr ht h0
    simp [order_target_thread, hr, ht, h0]
  · intro hr
    simp [order_target_thread, hr]
  · intro r hr ht
    simp [order_target_thread, hr, ht]
  · intro r hr ht
    simp [order_target_thread, hr, ht]

/-- Sample storage with the route of order1 (name computed with the source
separator) linked to topic 9. -/
def store_routes : InMemoryStorage :=
  { routes := [("a ‚Üí b", { name := "a ‚Üí b", thread_id := some 9 })] }

/-- Sample storage whose binding for the computed route name of order1
carries the (Python-falsy) thread id 0. -/
def store_zero_route : InMemoryStorage :=
  { routes := [("a ‚Üí b", { name := "a ‚Üí b", thread_id := some 0 })] }

/-- Witness for C5: order1 (from "a" to "b") targets topic 9 through the
binding of store_routes, and falls back to the default channel when the
binding under the same computed name carries the thread id 0. -/
theorem C5_route_name_and_target_witness :
    order_target_thread store_routes order1 = some 9 ∧
    order_target_thread store_zero_route order1 = none :=
  ⟨(C5_route_name_and_target store_routes order1).2.1
     { name := "a ‚Üí b", thread_id := some 9 } 9 (by decide) (by decide) (by decide),
   (C5_route_name_and_target store_zero_route order1).2.2.2.2
     { name := "a ‚Üí b", thread_id := some 0 } (by decide) (by decide)⟩

/-- Sample storage binding the route name of the claim's stated format —
"a→b", a real arrow and no spaces — to topic 9. -/
def store_claim_route : InMemoryStorage :=
  { routes := [("a→b", { name := "a→b", thread_id := some 9 })] }

/-- C5 as stated is false at two concrete inputs, each a RouteBinding with a
bound (non-null) sub-channel that the announcement nevertheless does not
target.  First, for the order from "a" to "b" a binding to sub-channel 9
exists under exactly the claim's name "a→b" = "{origin}→{destination}", yet
the announcement targets the default channel, because the code computes the
differently-spelled name "a ‚Üí b" — forcing the amended separator.  Second,
a binding bound to sub-channel 0 under exactly the computed name is also
bypassed for the default channel, because Python treats the thread id 0 as
falsy — forcing the amended non-zero condition. -/
theorem C5_claimed_format_counterexample :
    get_route store_claim_route ("a" ++ "→" ++ "b") =
      some { name := "a→b", thread_id := some 9 } ∧
    route_name_from_order order1 ≠ "a" ++ "→" ++ "b" ∧
    order_target_thread store_claim_route order1 = none ∧
    get_route store_zero_route (route_name_from_order order1) =
      some { name := "a ‚Üí b", thread_id := some 0 } ∧
    order_target_thread store_zero_route order1 = none := by
  refine ⟨by decide, by decide, by decide, by decide, by decide⟩

/-- C8: publish (distribute_order) is a total function of the storage, the
order and the outbound channel — it never raises to its caller; when the
outbound send fails, the failure is swallowed (the announcement handle is
none, matching the source, which drops the message id even on success), the
storage is returned unchanged, and the pending order is still discoverable
via get_pending_orders. -/
theorem C8_publish_failure_swallowed (s : InMemoryStorage) (o : Order)
    (send : Int → String → Option Int → SendOutcome)
    (hg : get_order s o.id = some o) (hp : o.status = "pending")
    (hfail : send MAIN_GROUP_ID (order_text o) (order_target_thread s o) = SendOutcome.failed) :
    distribute_order s o send = (s, none) ∧ o ∈ get_pending_orders s := by
  constructor
  · simp [distribute_order, hfail]
  · have hm : (o.id, o) ∈ s.orders := mem_of_dictGet hg
    apply List.mem_filter.2
    exact ⟨List.mem_map.2 ⟨(o.id, o), hm, rfl⟩, by simp [hp]⟩

/-- Witness for C8: an always-failing outbound channel on the sample pending
order. -/
theorem C8_publish_failure_swallowed_witness :
    distribute_order store1 order1 (fun _ _ _ => SendOutcome.failed) = (store1, none) ∧
    order1 ∈ get_pending_orders store1 :=
  C8_publish_failure_swallowed store1 order1 (fun _ _ _ => SendOutcome.failed)
    (by decide) (by decide) rfl

end Taxi
